import Mathlib

/-!
Shallow embedding of `src/leaflet-gsheets.js`.

The script converts spreadsheet rows into Leaflet layers:
* `addPolygons` filters `StateRow`s by their `include` column, JSON-parses
  each included row's `geometry` column, and assembles a GeoJSON
  FeatureCollection of MultiPolygon features; it detaches the previously
  attached polygon layer before rebuilding.
* `addPoints` turns every `LawRow` into one marker (no filtering) inside a
  fresh layer group, replacing the previous group.
* `getColor` maps a category string to a marker color.

`JSON.parse` and the Leaflet rendering library are external collaborators:
JSON parsing is modelled as an arbitrary function `parse : String → Except ε C`
into an arbitrary coordinate-tree type `C` (JavaScript first coerces the
argument to a string, so a missing field parses the string "undefined"),
and the Leaflet map is modelled as lists of currently attached layers,
with `remove()` erasing a layer and `addTo(map)` appending it.
-/

/-- One row of the states sheet.  Every cell is a string; a field is `none`
when the column is absent from the row (JavaScript `undefined`). -/
structure StateRow where
  «include» : Option String
  geometry : Option String
  name : Option String
  summary : Option String
  state : Option String
  «local» : Option String
  deriving Repr, DecidableEq

/-- One row of the laws sheet. -/
structure LawRow where
  lat : Option String
  long : Option String
  location : Option String
  category : Option String
  level : Option String
  deriving Repr, DecidableEq

/-- JavaScript string coercion of a possibly-missing cell:
`undefined` coerces to the string "undefined". -/
def jsStr : Option String → String
  | none => "undefined"
  | some s => s

/-- The `properties` object pushed for each included state row
(`leaflet-gsheets.js` lines 77-82): exactly the four keys
`name`, `summary`, `state`, `local`, copied verbatim from the row. -/
structure FeatProps where
  name : Option String
  summary : Option String
  state : Option String
  «local» : Option String
  deriving Repr, DecidableEq

/-- A GeoJSON geometry: a type tag and a coordinate tree of type `C`. -/
structure Geometry (C : Type) where
  type : String
  coordinates : C
  deriving Repr, DecidableEq

/-- A GeoJSON feature as pushed by `addPolygons` (lines 71-83). -/
structure Feature (C : Type) where
  type : String
  geometry : Geometry C
  properties : FeatProps
  deriving Repr, DecidableEq

/-- The GeoJSON FeatureCollection `geojsonStates` (lines 61-64). -/
structure FeatureCollection (C : Type) where
  type : String
  features : List (Feature C)
  deriving Repr, DecidableEq

/-- The body of the loop at lines 68-84 for one included row: parse the
row's `geometry` cell and build the feature object pushed onto
`geojsonStates.features`. -/
def rowFeature (parse : String → Except ε C) (r : StateRow) : Except ε (Feature C) :=
  match parse (jsStr r.geometry) with
  | Except.error e => Except.error e
  | Except.ok coords =>
      Except.ok
        { type := "Feature"
          geometry := { type := "MultiPolygon", coordinates := coords }
          properties :=
            { name := r.name, summary := r.summary
              state := r.state, «local» := r.«local» } }

/-- The loop at lines 66-85: walk the rows in order, skip a row unless its
`include` cell is exactly "y", parse the kept row's geometry (a parse
failure aborts the whole loop, as the JavaScript exception does), and
collect the features in row order. -/
def buildFeatures (parse : String → Except ε C) : List StateRow → Except ε (List (Feature C))
  | [] => Except.ok []
  | r :: rs =>
      if r.«include» = some "y" then
        match rowFeature parse r with
        | Except.error e => Except.error e
        | Except.ok f =>
            match buildFeatures parse rs with
            | Except.error e => Except.error e
            | Except.ok fs => Except.ok (f :: fs)
      else buildFeatures parse rs

/-- The finished `geojsonStates` value: type tag "FeatureCollection"
(line 62) around the features collected by the loop. -/
def buildCollection (parse : String → Except ε C) (rows : List StateRow) :
    Except ε (FeatureCollection C) :=
  match buildFeatures parse rows with
  | Except.error e => Except.error e
  | Except.ok fs => Except.ok { type := "FeatureCollection", features := fs }

/-- `getColor` (lines 139-149): switch on the category string. -/
def getColor (type : String) : String :=
  match type with
  | "Bag Ban" => "green"
  | "Recycling" => "blue"
  | _ => "green"

/-- One marker built by the loop at lines 120-134: position taken verbatim
from the row, popup HTML concatenated from `location`, `category`, `level`,
icon colored by `getColor(category)`. -/
structure Marker where
  lat : Option String
  long : Option String
  popup : String
  markerColor : String
  deriving Repr, DecidableEq

/-- The marker `addPoints` creates for one row (lines 121-132). -/
def markerOf (r : LawRow) : Marker :=
  { lat := r.lat
    long := r.long
    popup := "<h2>" ++ jsStr r.location ++ "</h2>" ++ jsStr r.category ++
      " regulations at " ++ jsStr r.level ++ " level"
    markerColor := getColor (jsStr r.category) }

/-- The mutable rendering state: the two module-level slot variables
`polygonLayer` and `pointGroupLayer` (lines 46-47), plus the Leaflet map
modelled as the lists of polygon layers and point layer groups currently
attached to it.  A polygon layer is identified with the FeatureCollection
it renders; a point layer group with its list of markers. -/
structure RenderState (C : Type) where
  polygonLayer : Option (FeatureCollection C)
  pointGroupLayer : Option (List Marker)
  mapPolygonLayers : List (FeatureCollection C)
  mapPointGroups : List (List Marker)
  deriving Repr, DecidableEq

/-- The state at startup: both slots `undefined`, nothing attached. -/
def initState (C : Type) : RenderState C :=
  { polygonLayer := none, pointGroupLayer := none
    mapPolygonLayers := [], mapPointGroups := [] }

/-- `addPolygons` (lines 52-110).  First, if the slot already holds a layer,
that layer is detached from the map (`polygonLayer.remove()`, line 55) —
the slot itself is not cleared.  Then the rows are converted; a geometry
parse failure aborts here (returned flag `false`), leaving the mutated
state behind, exactly as the JavaScript exception would.  On success the
new layer is attached (`addTo(map)`, line 109) and stored in the slot. -/
def addPolygons [DecidableEq C] (parse : String → Except ε C)
    (data : List StateRow) (s : RenderState C) : RenderState C × Bool :=
  let s1 :=
    match s.polygonLayer with
    | some l => { s with mapPolygonLayers := s.mapPolygonLayers.erase l }
    | none => s
  match buildCollection parse data with
  | Except.error _ => (s1, false)
  | Except.ok fc =>
      ({ s1 with polygonLayer := some fc
                 mapPolygonLayers := s1.mapPolygonLayers ++ [fc] }, true)

/-- `addPoints` (lines 114-135): detach the old layer group if any,
attach a fresh group, and fill it with one marker per row, in row order,
with no filtering and no possibility of failure. -/
def addPoints [DecidableEq C] (data : List LawRow) (s : RenderState C) : RenderState C :=
  let s1 :=
    match s.pointGroupLayer with
    | some g => { s with mapPointGroups := s.mapPointGroups.erase g }
    | none => s
  let g := data.map markerOf
  { s1 with pointGroupLayer := some g
            mapPointGroups := s1.mapPointGroups ++ [g] }

/-- The bookkeeping invariant relating the polygon slot to the map: the
attached polygon layers are exactly the one the slot records (or none
before the first build).  It holds at startup and after every successful
`addPolygons` call. -/
def polygonInv (s : RenderState C) : Prop :=
  s.mapPolygonLayers = s.polygonLayer.toList

/-! ### Concrete instances used by witnesses and counterexamples -/

/-- A concrete stand-in for `JSON.parse` over `C = Nat`: the string "[0]"
parses, everything else (in particular "oops" and "undefined") raises. -/
def demoParse (s : String) : Except String Nat :=
  if s = "[0]" then Except.ok 0 else Except.error "SyntaxError"

/-- An included row with well-formed geometry. -/
def yRowA : StateRow :=
  { «include» := some "y", geometry := some "[0]", name := some "Alaska"
    summary := some "Statewide ban", state := some "y", «local» := some "n" }

/-- A second included row with well-formed geometry and different properties. -/
def yRowB : StateRow :=
  { «include» := some "y", geometry := some "[0]", name := some "Hawaii"
    summary := some "De facto ban", state := some "n", «local» := some "y" }

/-- An excluded row (`include` is "n") whose geometry is unparseable. -/
def nRowBad : StateRow :=
  { «include» := some "n", geometry := some "oops", name := some "Texas"
    summary := some "None", state := some "n", «local» := some "n" }

/-- An included row whose geometry is unparseable. -/
def yRowBad : StateRow :=
  { «include» := some "y", geometry := some "oops", name := some "Utah"
    summary := some "None", state := some "n", «local» := some "n" }

/-- A concrete law row. -/
def lawRowA : LawRow :=
  { lat := some "47.6", long := some "-122.3", location := some "Seattle"
    category := some "Bag Ban", level := some "City" }

/-- A second concrete law row, with a non-numeric latitude. -/
def lawRowB : LawRow :=
  { lat := some "not a number", long := none, location := some "Olympia"
    category := some "Recycling", level := some "State" }

/-! ### Shared lemmas -/

/-- Unfolding lemma: the loop keeps exactly the rows whose `include` cell is
"y", converting them in order, fail-fast. -/
theorem buildFeatures_eq_filter_mapM (parse : String → Except ε C) (rows : List StateRow) :
    buildFeatures parse rows =
      (rows.filter fun r => r.«include» = some "y").mapM (rowFeature parse) := by
  induction rows with
  | nil => rfl
  | cons r rs ih =>
    by_cases h : r.«include» = some "y"
    · rw [buildFeatures, if_pos h, List.filter_cons_of_pos (by simpa using h),
        List.mapM_cons, ← ih]
      cases hf : rowFeature parse r with
      | error e => rfl
      | ok f =>
        cases hb : buildFeatures parse rs with
        | error e => rfl
        | ok fs => rfl
    · rw [buildFeatures, if_neg h, List.filter_cons_of_neg (by simpa using h), ih]

/-- On success, the output features correspond pointwise, in order, to the
rows that pass the `include` filter. -/
theorem buildFeatures_forall₂ {parse : String → Except ε C} {rows : List StateRow}
    {feats : List (Feature C)} (h : buildFeatures parse rows = Except.ok feats) :
    List.Forall₂ (fun r f => rowFeature parse r = Except.ok f)
      (rows.filter fun r => r.«include» = some "y") feats := by
  induction rows generalizing feats with
  | nil =>
    cases h
    exact List.Forall₂.nil
  | cons r rs ih =>
    by_cases hy : r.«include» = some "y"
    · rw [buildFeatures, if_pos hy] at h
      rw [List.filter_cons_of_pos (by simpa using hy)]
      cases hf : rowFeature parse r with
      | error e => rw [hf] at h; cases h
      | ok f =>
        rw [hf] at h
        cases hb : buildFeatures parse rs with
        | error e => rw [hb] at h; cases h
        | ok fs =>
          rw [hb] at h
          cases h
          exact List.Forall₂.cons hf (ih hb)
    · rw [buildFeatures, if_neg hy] at h
      rw [List.filter_cons_of_neg (by simpa using hy)]
      exact ih h

/-- If some row with `include = "y"` has unparseable geometry, the whole
loop fails. -/
theorem buildFeatures_error_of_mem {parse : String → Except ε C} {rows : List StateRow}
    {r : StateRow} {e : ε} (hmem : r ∈ rows) (hy : r.«include» = some "y")
    (hbad : parse (jsStr r.geometry) = Except.error e) :
    ∃ e', buildFeatures parse rows = Except.error e' := by
  induction rows with
  | nil => cases hmem
  | cons a rs ih =>
    by_cases ha : a.«include» = some "y"
    · rw [buildFeatures, if_pos ha]
      cases hf : rowFeature parse a with
      | error e0 => exact ⟨e0, rfl⟩
      | ok f =>
        rcases List.mem_cons.mp hmem with hra | hrs
        · subst hra
          rw [rowFeature, hbad] at hf
          cases hf
        · rcases ih hrs with ⟨e', he'⟩
          rw [he']
          exact ⟨e', rfl⟩
    · rw [buildFeatures, if_neg ha]
      rcases List.mem_cons.mp hmem with hra | hrs
      · subst hra; exact absurd hy ha
      · exact ih hrs

/-- Every feature the loop emits was produced by `rowFeature` on some row. -/
theorem mem_buildFeatures {parse : String → Except ε C} {rows : List StateRow}
    {feats : List (Feature C)} (h : buildFeatures parse rows = Except.ok feats)
    {f : Feature C} (hf : f ∈ feats) :
    ∃ r, rowFeature parse r = Except.ok f := by
  induction rows generalizing feats with
  | nil =>
    cases h
    cases hf
  | cons a rs ih =>
    by_cases ha : a.«include» = some "y"
    · rw [buildFeatures, if_pos ha] at h
      cases hfa : rowFeature parse a with
      | error e => rw [hfa] at h; cases h
      | ok f0 =>
        rw [hfa] at h
        cases hb : buildFeatures parse rs with
        | error e => rw [hb] at h; cases h
        | ok fs =>
          rw [hb] at h
          cases h
          rcases List.mem_cons.mp hf with hff | hfs
          · subst hff; exact ⟨a, hfa⟩
          · exact ih hb hfs
    · rw [buildFeatures, if_neg ha] at h
      exact ih h hf

/-- The per-row popup/feature shape is fixed; helper for later claims:
`rowFeature` only succeeds with a feature of the literal shape pushed at
lines 71-83. -/
theorem rowFeature_ok_shape {parse : String → Except ε C} {r : StateRow} {f : Feature C}
    (h : rowFeature parse r = Except.ok f) :
    f.type = "Feature" ∧ f.geometry.type = "MultiPolygon" ∧
      f.properties = { name := r.name, summary := r.summary
                       state := r.state, «local» := r.«local» } := by
  rw [rowFeature] at h
  cases hp : parse (jsStr r.geometry) with
  | error e => rw [hp] at h; cases h
  | ok coords => rw [hp] at h; cases h; exact ⟨rfl, rfl, rfl⟩

/-- A successful `addPolygons` call, starting from a state whose attached
polygon layers match the slot, leaves exactly the new layer attached and
re-establishes the bookkeeping invariant. -/
theorem addPolygons_success {C : Type} [DecidableEq C] {parse : String → Except ε C}
    {d : List StateRow} {s s' : RenderState C} (hInv : polygonInv s)
    (h : addPolygons parse d s = (s', true)) :
    ∃ fc, buildCollection parse d = Except.ok fc ∧
      s'.polygonLayer = some fc ∧ s'.mapPolygonLayers = [fc] ∧ polygonInv s' := by
  unfold addPolygons at h
  cases hb : buildCollection parse d with
  | error e =>
    rw [hb] at h
    cases h
  | ok fc =>
    rw [hb] at h
    cases h
    refine ⟨fc, rfl, rfl, ?_, ?_⟩ <;>
    · cases hs : s.polygonLayer with
      | none =>
        rw [polygonInv, hs] at hInv
        simp [hs, hInv, polygonInv]
      | some l =>
        rw [polygonInv, hs] at hInv
        simp [hs, hInv, polygonInv]

/-! ### Claim theorems -/

/-- Claim C1: `addPolygons` emits a Feature for a row if and only if that
row's `include` cell equals the literal string "y" — an exact,
case-sensitive comparison with no trimming; every other row, including
rows with an empty or missing `include` cell, is silently dropped.  The
loop is exactly a filter by `include = some "y"` followed by the in-order,
fail-fast per-row conversion `rowFeature`; rows failing the filter
contribute nothing (and their geometry is never even parsed). -/
theorem addPolygons_emits_iff_include_y (parse : String → Except ε C)
    (rows : List StateRow) :
    buildFeatures parse rows =
      (rows.filter fun r => r.«include» = some "y").mapM (rowFeature parse) :=
  buildFeatures_eq_filter_mapM parse rows

/-- Claim C2 (counterexample to the claim as stated): a row whose
`geometry` cell is unparseable but whose `include` cell is "n" does NOT
make the build fail — the loop never parses the geometry of a filtered-out
row, so the build succeeds and produces an (empty) FeatureCollection. -/
theorem unparseable_geometry_excluded_row_cex :
    demoParse (jsStr nRowBad.geometry) = Except.error "SyntaxError" ∧
    buildCollection demoParse [nRowBad] =
      Except.ok { type := "FeatureCollection", features := ([] : List (Feature Nat)) } :=
  ⟨rfl, rfl⟩

/-- Claim C2 (amended): if the `geometry` cell of any row whose `include`
cell equals "y" is not parseable, then the build fails — no
FeatureCollection value is produced, and the stateful `addPolygons` call
reports failure for every starting state (so no new layer is rendered):
all-or-nothing, no partial collection. -/
theorem unparseable_geometry_included_row_fails {C : Type} [DecidableEq C]
    (parse : String → Except ε C) (rows : List StateRow) (r : StateRow) (e : ε)
    (hmem : r ∈ rows) (hy : r.«include» = some "y")
    (hbad : parse (jsStr r.geometry) = Except.error e) :
    (∃ e', buildCollection parse rows = Except.error e') ∧
      ∀ s : RenderState C, (addPolygons parse rows s).2 = false := by
  rcases buildFeatures_error_of_mem hmem hy hbad with ⟨e', he'⟩
  have hc : buildCollection parse rows = Except.error e' := by
    rw [buildCollection, he']
  refine ⟨⟨e', hc⟩, fun s => ?_⟩
  simp [addPolygons, hc]

/-- Witness for the amended C2 at a concrete input. -/
theorem unparseable_geometry_included_row_fails_witness :
    (∃ e', buildCollection demoParse [yRowBad] = Except.error e') ∧
      ∀ s : RenderState Nat, (addPolygons demoParse [yRowBad] s).2 = false :=
  unparseable_geometry_included_row_fails demoParse [yRowBad] yRowBad "SyntaxError"
    (List.mem_singleton.mpr rfl) rfl rfl

/-- Claim C3: `getColor` is an exact-match table: "Bag Ban" ↦ green,
"Recycling" ↦ blue, and every other string — including the empty string
and unrecognized strings such as "Composting" — falls through to the
default green; it never fails. -/
theorem getColor_exact_match_table :
    (∀ s : String, getColor s = if s = "Recycling" then "blue" else "green") ∧
    getColor "Bag Ban" = "green" ∧ getColor "Recycling" = "blue" ∧
    getColor "" = "green" ∧ getColor "Composting" = "green" := by
  refine ⟨fun s => ?_, rfl, rfl, rfl, rfl⟩
  by_cases h : s = "Recycling"
  · subst h; rfl
  · rw [if_neg h]
    unfold getColor
    split <;> simp_all

/-- Claim C4: for every list of LawRows of length N, `addPoints` fills the
fresh layer group with exactly N markers, one per row, in input row order
(the group is literally the row list mapped through `markerOf`), with no
filtering, deduplication or sorting; rows with non-numeric or missing
lat/long still produce their marker, carrying the cells verbatim. -/
theorem addPoints_one_marker_per_row {C : Type} [DecidableEq C]
    (rows : List LawRow) (s : RenderState C) :
    (addPoints rows s).pointGroupLayer = some (rows.map markerOf) ∧
      (rows.map markerOf).length = rows.length := by
  refine ⟨?_, by simp⟩
  cases hs : s.pointGroupLayer <;> simp [addPoints, hs]

/-- Claim C5: for every StateRow that passes the inclusion filter, the
resulting Feature's properties record equals exactly
`{name, summary, state, local}` with each value taken verbatim from the
source row — `FeatProps` has exactly those four keys, so equality of the
records means no extra keys, no missing keys, no coercion, no mutation. -/
theorem included_row_properties_verbatim (parse : String → Except ε C)
    (rows : List StateRow) (feats : List (Feature C))
    (h : buildFeatures parse rows = Except.ok feats) :
    List.Forall₂
      (fun (r : StateRow) (f : Feature C) =>
        f.properties = { name := r.name, summary := r.summary
                         state := r.state, «local» := r.«local» })
      (rows.filter fun r => r.«include» = some "y") feats :=
  (buildFeatures_forall₂ h).imp fun _ _ hrf => (rowFeature_ok_shape hrf).2.2

/-- Witness for C5 at a concrete input: one included and one excluded row. -/
theorem included_row_properties_verbatim_witness :
    List.Forall₂
      (fun (r : StateRow) (f : Feature Nat) =>
        f.properties = { name := r.name, summary := r.summary
                         state := r.state, «local» := r.«local» })
      ([yRowA, nRowBad].filter fun r => r.«include» = some "y")
      [{ type := "Feature", geometry := { type := "MultiPolygon", coordinates := 0 }
         properties := { name := some "Alaska", summary := some "Statewide ban"
                         state := some "y", «local» := some "n" } }] :=
  included_row_properties_verbatim demoParse [yRowA, nRowBad] _ rfl

/-- The feature built from `yRowA` by `demoParse`. -/
def featA : Feature Nat :=
  { type := "Feature", geometry := { type := "MultiPolygon", coordinates := 0 }
    properties := { name := some "Alaska", summary := some "Statewide ban"
                    state := some "y", «local» := some "n" } }

/-- The feature built from `yRowB` by `demoParse`. -/
def featB : Feature Nat :=
  { type := "Feature", geometry := { type := "MultiPolygon", coordinates := 0 }
    properties := { name := some "Hawaii", summary := some "De facto ban"
                    state := some "n", «local» := some "y" } }

/-- The FeatureCollection built from `[yRowA]` by `demoParse`. -/
def fcA : FeatureCollection Nat := { type := "FeatureCollection", features := [featA] }

/-- The FeatureCollection built from `[yRowB]` by `demoParse`. -/
def fcB : FeatureCollection Nat := { type := "FeatureCollection", features := [featB] }

/-- The rendering state after a first successful `addPolygons [yRowA]`. -/
def stateA : RenderState Nat :=
  { polygonLayer := some fcA, pointGroupLayer := none
    mapPolygonLayers := [fcA], mapPointGroups := [] }

/-- The rendering state after a subsequent successful `addPolygons [yRowB]`. -/
def stateB : RenderState Nat :=
  { polygonLayer := some fcB, pointGroupLayer := none
    mapPolygonLayers := [fcB], mapPointGroups := [] }

/-- Claim C6: starting from any state where the attached polygon layers
match the slot bookkeeping (as at startup and after every successful
build), two successive successful `addPolygons` calls each leave the map
with exactly one polygon layer attached — the previous layer is always
detached before the new one is attached, so repeated builds never
accumulate layers. -/
theorem addPolygons_idempotent_layer_count {C : Type} [DecidableEq C]
    {ε₁ ε₂ : Type} (p : String → Except ε₁ C) (q : String → Except ε₂ C)
    (d1 d2 : List StateRow) (s s1 s2 : RenderState C)
    (hInv : polygonInv s)
    (h1 : addPolygons p d1 s = (s1, true))
    (h2 : addPolygons q d2 s1 = (s2, true)) :
    s1.mapPolygonLayers.length = 1 ∧ s2.mapPolygonLayers.length = 1 := by
  rcases addPolygons_success hInv h1 with ⟨fc1, _, _, hm1, hinv1⟩
  rcases addPolygons_success hinv1 h2 with ⟨fc2, _, _, hm2, _⟩
  rw [hm1, hm2]
  exact ⟨rfl, rfl⟩

/-- Witness for C6: two successive builds from the startup state. -/
theorem addPolygons_idempotent_layer_count_witness :
    stateA.mapPolygonLayers.length = 1 ∧ stateB.mapPolygonLayers.length = 1 :=
  addPolygons_idempotent_layer_count demoParse demoParse [yRowA] [yRowB]
    (initState Nat) stateA stateB rfl rfl rfl

/-- Claim C7: layer replacement is last-writer-wins and history-free, for
both layer types: for any two (successfully converted) data arrivals `d1`
then `d2`, building `d1` and then `d2` from the startup state ends in
exactly the state that building `d2` alone from the startup (empty-slot)
state produces — each build discards and fully replaces the prior layer,
never merging, regardless of which source the data came from. -/
theorem layer_replacement_last_writer_wins {C : Type} [DecidableEq C] {ε : Type}
    (parse : String → Except ε C) (d1 d2 : List StateRow) (q1 q2 : List LawRow)
    (fc1 fc2 : FeatureCollection C)
    (h1 : buildCollection parse d1 = Except.ok fc1)
    (h2 : buildCollection parse d2 = Except.ok fc2) :
    (addPolygons parse d2 (addPolygons parse d1 (initState C)).1).1 =
      (addPolygons parse d2 (initState C)).1 ∧
    addPoints q2 (addPoints q1 (initState C)) = addPoints q2 (initState C) := by
  constructor
  · simp [addPolygons, initState, h1, h2]
  · simp [addPoints, initState]

/-- Witness for C7 at concrete data for both layer types. -/
theorem layer_replacement_last_writer_wins_witness :
    (addPolygons demoParse [yRowB] (addPolygons demoParse [yRowA] (initState Nat)).1).1 =
      (addPolygons demoParse [yRowB] (initState Nat)).1 ∧
    addPoints [lawRowB] (addPoints [lawRowA] (initState Nat)) =
      addPoints [lawRowB] (initState Nat) :=
  layer_replacement_last_writer_wins demoParse [yRowA] [yRowB] [lawRowA] [lawRowB]
    fcA fcB rfl rfl

/-- Claim C8: every Feature in a FeatureCollection produced by
`addPolygons`'s conversion has geometry type exactly "MultiPolygon", and
the collection's own type tag is "FeatureCollection", for every input row
sequence and every parse outcome that yields a collection at all. -/
theorem polygon_collection_type_tags {C : Type} {ε : Type}
    (parse : String → Except ε C) (rows : List StateRow) (fc : FeatureCollection C)
    (h : buildCollection parse rows = Except.ok fc) :
    fc.type = "FeatureCollection" ∧
      ∀ f ∈ fc.features, f.geometry.type = "MultiPolygon" := by
  rw [buildCollection] at h
  cases hb : buildFeatures parse rows with
  | error e => rw [hb] at h; cases h
  | ok fs =>
    rw [hb] at h
    cases h
    refine ⟨rfl, fun f hf => ?_⟩
    rcases mem_buildFeatures hb hf with ⟨r, hr⟩
    exact (rowFeature_ok_shape hr).2.1

/-- Witness for C8 at a concrete two-row input. -/
theorem polygon_collection_type_tags_witness :
    FeatureCollection.type { type := "FeatureCollection", features := [featA, featB] } =
        "FeatureCollection" ∧
      ∀ f ∈ FeatureCollection.features
          { type := "FeatureCollection", features := [featA, featB] },
        f.geometry.type = "MultiPolygon" :=
  polygon_collection_type_tags demoParse [yRowA, yRowB]
    { type := "FeatureCollection", features := [featA, featB] } rfl

/-- Claim C9: `addPolygons` is not atomic on error.  It detaches the
previously attached polygon layer before any row's geometry is parsed, so
when the build fails on malformed geometry the map is left with no polygon
layer attached — the old layer is already removed and no new one is built
— while the slot variable still holds a stale reference to the detached
layer. -/
theorem addPolygons_not_atomic_on_error {C : Type} [DecidableEq C] {ε : Type}
    (parse : String → Except ε C) (rows : List StateRow) (s : RenderState C)
    (L : FeatureCollection C) (e : ε) (hInv : polygonInv s)
    (hL : s.polygonLayer = some L)
    (hfail : buildCollection parse rows = Except.error e) :
    (addPolygons parse rows s).2 = false ∧
    (addPolygons parse rows s).1.mapPolygonLayers = [] ∧
    (addPolygons parse rows s).1.polygonLayer = some L := by
  have hm : s.mapPolygonLayers = [L] := by
    rw [polygonInv, hL] at hInv
    simpa using hInv
  simp [addPolygons, hL, hm, hfail]

/-- Witness for C9: a failing build from a state holding one layer. -/
theorem addPolygons_not_atomic_on_error_witness :
    (addPolygons demoParse [yRowBad] stateA).2 = false ∧
    (addPolygons demoParse [yRowBad] stateA).1.mapPolygonLayers = [] ∧
    (addPolygons demoParse [yRowBad] stateA).1.polygonLayer = some fcA :=
  addPolygons_not_atomic_on_error demoParse [yRowBad] stateA fcA "SyntaxError"
    rfl rfl rfl

/-- Claim C10: the features of a successfully built collection appear in
the same relative order as their source rows: the filtered row list is an
order-preserving sublist of the input, and the output features correspond
to it pointwise and in order, so a row occurring earlier in the input
yields a Feature occurring earlier in the output. -/
theorem polygon_features_preserve_row_order (parse : String → Except ε C)
    (rows : List StateRow) (feats : List (Feature C))
    (h : buildFeatures parse rows = Except.ok feats) :
    (rows.filter fun r => r.«include» = some "y").Sublist rows ∧
    List.Forall₂ (fun r f => rowFeature parse r = Except.ok f)
      (rows.filter fun r => r.«include» = some "y") feats :=
  ⟨List.filter_sublist rows, buildFeatures_forall₂ h⟩

/-- Witness for C10: three rows, the middle one excluded; the two features
come out in the order of their rows. -/
theorem polygon_features_preserve_row_order_witness :
    ([yRowA, nRowBad, yRowB].filter fun r => r.«include» = some "y").Sublist
        [yRowA, nRowBad, yRowB] ∧
    List.Forall₂ (fun r f => rowFeature demoParse r = Except.ok f)
      ([yRowA, nRowBad, yRowB].filter fun r => r.«include» = some "y")
      [featA, featB] :=
  polygon_features_preserve_row_order demoParse [yRowA, nRowBad, yRowB]
    [featA, featB] rfl
